import Mathlib

set_option maxRecDepth 100000

/-!
Shallow embedding of the Jupiter Power Wash worker (src/worker/index.js),
centered on the chat endpoint handleChat (lines 250-378), the direct booking
endpoint handleBooking (lines 94-182), and the conversation history query
(lines 259-264).  Strings are modelled as lists of characters; the two
regular expressions of the chat path are modelled by their string semantics
(first begin marker, then first end marker after it); JSON.parse is modelled
on the domain the delimiter protocol documents, flat objects with
string-valued fields; the external effects (storage errors, the model call,
the Discord webhook, the MailChannels email) are modelled by explicit
success flags and the text the model returns.
-/

namespace Jupwash

/-- ASCII whitespace, the common part of the regex class backslash-s and of
String.prototype.trim that is relevant here (space, tab, newline, carriage
return, vertical tab, form feed). -/
def wsChars : List Char := [' ', '\t', '\n', '\r', Char.ofNat 11, Char.ofNat 12]

def isWs (c : Char) : Bool := wsChars.contains c

/-- Remove leading and trailing whitespace, as String.prototype.trim does. -/
def trimWs (s : List Char) : List Char :=
  ((s.dropWhile isWs).reverse.dropWhile isWs).reverse

/-- Whether the first list is an initial segment of the second. -/
def isStartOf (pat s : List Char) : Bool := s.take pat.length == pat

/-- Index of the first occurrence of pat in s, if any. -/
def findSubstr (pat : List Char) : List Char → Option Nat
  | [] => if isStartOf pat [] then some 0 else none
  | c :: rest =>
    if isStartOf pat (c :: rest) then some 0
    else (findSubstr pat rest).map (· + 1)

/-- The begin marker of the delimiter protocol (18 characters). -/
def bMark : List Char := "###BOOKING_DATA###".data

/-- The end marker of the delimiter protocol (17 characters). -/
def eMark : List Char := "###END_BOOKING###".data

/-- Group 1 of the line 294 regex match: after the first begin marker, the
text up to the first following end marker, with surrounding whitespace eaten
by the two greedy whitespace runs around the lazy capture group.  None when
either marker is missing (no match). -/
def extractGroup (s : List Char) : Option (List Char) :=
  match findSubstr bMark s with
  | none => none
  | some i =>
    match findSubstr eMark (s.drop (i + bMark.length)) with
    | none => none
    | some k => some (trimWs ((s.drop (i + bMark.length)).take k))

/-- The span (start index, end index exclusive) of the first full match of
the marker-to-marker regex, shared by line 294 and line 365 of the source. -/
def matchSpan (s : List Char) : Option (Nat × Nat) :=
  match findSubstr bMark s with
  | none => none
  | some i =>
    match findSubstr eMark (s.drop (i + bMark.length)) with
    | none => none
    | some k => some (i, i + bMark.length + k + eMark.length)

/-- Line 365: replace without the global flag removes only the first match. -/
def stripFirstBlock (s : List Char) : List Char :=
  match matchSpan s with
  | none => s
  | some (i, j) => s.take i ++ s.drop j

/-- Line 365 in full: strip the first marker block, then trim. -/
def cleanResponse (s : List Char) : List Char :=
  trimWs (stripFirstBlock s)

def lbrace : Char := Char.ofNat 123

def rbrace : Char := Char.ofNat 125

/-- The two-character JSON string escapes as source-to-decoded pairs (the
unicode escape form is not modelled; none of the payloads considered here
use it). -/
def escTable : List (Char × Char) :=
  [('"', '"'), ('\\', '\\'), ('/', '/'), ('n', '\n'), ('t', '\t'),
    ('r', '\r'), ('b', Char.ofNat 8), ('f', Char.ofNat 12)]

def escChar (c : Char) : Option Char :=
  (escTable.find? (fun p => p.1 == c)).map (fun p => p.2)

/-- Body of a JSON string literal after the opening quote: returns the
decoded characters and the rest after the closing quote.  Raw control
characters and unknown escapes are rejected, as JSON.parse rejects them. -/
def parseStrBody : List Char → Option (List Char × List Char)
  | [] => none
  | c :: rest =>
    if c == '"' then some ([], rest)
    else if c == '\\' then
      match rest with
      | [] => none
      | e :: rest2 =>
        match escChar e with
        | none => none
        | some ec =>
          match parseStrBody rest2 with
          | none => none
          | some (b, r) => some (ec :: b, r)
    else if c.toNat < 32 then none
    else
      match parseStrBody rest with
      | none => none
      | some (b, r) => some (c :: b, r)

def skipWs (s : List Char) : List Char := s.dropWhile isWs

/-- Members of a JSON object, fuel-indexed: a string key, a colon, a string
value, then either a comma and more members or the closing brace.  Returns
the members in source order (so a later duplicate key sits later in the
list) and the rest of the input after the closing brace. -/
def parseMembersF : Nat → List Char → Option (List (String × String) × List Char)
  | 0, _ => none
  | fuel + 1, s =>
    match skipWs s with
    | [] => none
    | c :: rest =>
      if c == '"' then
        match parseStrBody rest with
        | none => none
        | some (k, r1) =>
          match skipWs r1 with
          | ch :: r2 =>
            if ch == ':' then
              match skipWs r2 with
              | v0 :: r3 =>
                if v0 == '"' then
                  match parseStrBody r3 with
                  | none => none
                  | some (v, r4) =>
                    match skipWs r4 with
                    | d :: r5 =>
                      if d == ',' then
                        match parseMembersF fuel r5 with
                        | none => none
                        | some (ms, r6) => some ((String.mk k, String.mk v) :: ms, r6)
                      else if d == rbrace then
                        some ([(String.mk k, String.mk v)], r5)
                      else none
                    | [] => none
                else none
              | [] => none
            else none
          | [] => none
      else none

/-- JSON.parse at line 298, modelled on the domain the delimiter protocol
documents: a single flat object with string-valued fields.  Fails on
anything else, as the spec prescribes for the structural parse (a flat
record with string-valued fields); trailing garbage after the object also
fails, as in JSON.parse. -/
def parseJsonFlat (s : List Char) : Option (List (String × String)) :=
  match skipWs s with
  | [] => none
  | c :: rest =>
    if c == lbrace then
      match skipWs rest with
      | [] => none
      | d :: rest2 =>
        if d == rbrace then
          if skipWs rest2 = [] then some [] else none
        else
          match parseMembersF (s.length + 1) rest with
          | none => none
          | some (obj, r) => if skipWs r = [] then some obj else none
    else none

/-- Property access on the parsed object: with duplicate keys, the later
assignment wins, as in a JavaScript object literal built left to right. -/
def jget (o : List (String × String)) (k : String) : Option String :=
  match o with
  | [] => none
  | (k1, v) :: rest =>
    match jget rest k with
    | some v2 => some v2
    | none => if k1 == k then some v else none

structure BookingRow where
  name : String
  email : String
  phone : String
  service : String
  date : String
  time : String
  address : String
  notes : String
deriving DecidableEq, Repr

structure ConvRow where
  session_id : String
  role : String
  content : String
  created_at : Nat
deriving DecidableEq, Repr

/-- The D1 database state.  Rows carry a creation sequence number standing
for created_at; nextTime is the next sequence number to assign. -/
structure Db where
  bookings : List BookingRow
  conversations : List ConvRow
  nextTime : Nat
deriving DecidableEq, Repr

/-- The value bound to the id field of the response: the numeric row id, or
the literal string N/A when the reported last_row_id is absent or zero
(both are falsy, so the or-else at lines 115 and 315 yields the string), or
a value copied from the payload itself when the payload carries an id key
(the object spread at line 316 puts the payload after the id field, so a
payload id key overrides the assigned one). -/
inductive JsId where
  | num (n : Nat)
  | na
  | fromPayload (v : String)
deriving DecidableEq, Repr

/-- Lines 115 and 315: dbResult.meta?.last_row_id with the falsy or-else. -/
def jsIdOf : Option Nat → JsId
  | some n => if n == 0 then JsId.na else JsId.num n
  | none => JsId.na

/-- The bookingCreated object of line 316: an id field plus every key of the
parsed payload. -/
structure BookingCreated where
  id : JsId
  data : List (String × String)
deriving DecidableEq, Repr

/-- Line 316: the spread places the payload after the id field, so a payload
key named id overrides the assigned identifier. -/
def mkBookingCreated (i : JsId) (obj : List (String × String)) : BookingCreated :=
  match jget obj "id" with
  | some v => ⟨JsId.fromPayload v, obj⟩
  | none => ⟨i, obj⟩

/-- Insertion into a list sorted by created_at ascending. -/
def insertByTime (r : ConvRow) : List ConvRow → List ConvRow
  | [] => [r]
  | x :: xs =>
    if r.created_at < x.created_at then r :: x :: xs
    else x :: insertByTime r xs

/-- Sort by created_at ascending, modelling ORDER BY created_at ASC. -/
def sortByTime : List ConvRow → List ConvRow
  | [] => []
  | x :: xs => insertByTime x (sortByTime xs)

/-- Lines 259-264: SELECT role, content FROM conversations WHERE
session_id equals the given id ORDER BY created_at ASC LIMIT 20, each row
reduced to the (role, content) pair. -/
def loadHistory (db : Db) (sid : String) : List (String × String) :=
  ((sortByTime (db.conversations.filter (fun r => r.session_id == sid))).take 20).map
    (fun r => (r.role, r.content))

/-- Modelled from the spec: the History Loader contract of section 4.1,
an ordered sequence of up to 20 of the most recent turns of the session,
in ascending chronological order.  Stated only to compare against the
behaviour of loadHistory. -/
def specMostRecent (db : Db) (sid : String) : List (String × String) :=
  (((sortByTime (db.conversations.filter (fun r => r.session_id == sid))).reverse.take 20).reverse).map
    (fun r => (r.role, r.content))

/-- Outcomes of the external effects of one chat request.  historyOk, aiOk
and appendOk say whether the awaited history read (line 259), the model
call (line 274) and the two-row turn batch (line 283) complete without
throwing; aiText is the assistant text the model returns; insertOk says
whether the booking insert of line 301 completes, and insertMeta is the
last_row_id its meta reports (none when absent); discordOk says whether the
webhook post of line 403 gets an ok response (line 417 throws otherwise);
emailHttpOk says whether the email post gets an ok response, which line 446
merely logs, so it never throws. -/
structure Fx where
  historyOk : Bool
  aiOk : Bool
  aiText : String
  appendOk : Bool
  insertOk : Bool
  insertMeta : Option Nat
  discordOk : Bool
  emailHttpOk : Bool
deriving DecidableEq, Repr

/-- The already-parsed JSON body of a chat request; a field is none when the
body lacks it. -/
structure ChatReq where
  message : Option String
  sessionId : Option String
deriving DecidableEq, Repr

/-- The JSON response bodies the worker produces, by their key sets:
an error object, the chat success object of lines 367-370 (keys response
and bookingCreated, the latter null or an object), the degraded chat object
of lines 374-376 (key response only), and the booking success object of
lines 172-176. -/
inductive RespBody where
  | errBody (msg : String)
  | chatBody (resp : String) (bookingCreated : Option BookingCreated)
  | fallbackBody (resp : String)
  | bookingOkBody (bookingId : JsId) (msg : String)
deriving DecidableEq, Repr

structure HttpResp where
  status : Nat
  body : RespBody
deriving DecidableEq, Repr

/-- The key set of each serialized response body. -/
def bodyKeys : RespBody → List String
  | .errBody _ => ["error"]
  | .chatBody _ _ => ["response", "bookingCreated"]
  | .fallbackBody _ => ["response"]
  | .bookingOkBody _ _ => ["success", "bookingId", "message"]

/-- JavaScript falsiness of a string-or-absent field: absent or empty. -/
def strFalsy : Option String → Bool
  | none => true
  | some s => s == ""

/-- The degraded reply of lines 374-376. -/
def fallbackMsg : String :=
  "I\x27m having a little trouble right now. You can call us directly at 561.532.7120 or use the booking form above!"

def phoneNum : String := "561.532.7120"

/-- Lines 283-290: the batch appending the user turn and the raw assistant
turn, in that order, to the conversations table. -/
def appendTurns (db : Db) (sid msg ai : String) : Db :=
  { db with
    conversations := db.conversations ++
      [⟨sid, "user", msg, db.nextTime⟩, ⟨sid, "assistant", ai, db.nextTime + 1⟩],
    nextTime := db.nextTime + 2 }

/-- The inner try block of lines 297-361, given the matched group g:
JSON.parse, the seven property reads bound into the insert (the storage
layer rejects an undefined bound value, and a missing column would violate
a not-null constraint, so a missing key makes the insert throw before any
row lands), the insert itself, then the Discord webhook, which throws when
its response is not ok; the email helper logs failures and never throws.
Returns the database and the bookingCreated variable as they stand when the
block finishes or throws, plus whether it threw.  The bookingCreated
assignment at line 316 precedes the notifications, so a webhook failure
leaves both the inserted row and the assigned value in place. -/
def innerAttempt (fx : Fx) (db1 : Db) (g : List Char) :
    (Db × Option BookingCreated) × Bool :=
  match parseJsonFlat g with
  | none => ((db1, none), true)
  | some obj =>
    match jget obj "name", jget obj "email", jget obj "phone", jget obj "service",
          jget obj "date", jget obj "time", jget obj "address" with
    | some nm, some em, some ph, some sv, some dt, some tm, some ad =>
      if fx.insertOk then
        (({ db1 with bookings := db1.bookings ++
            [⟨nm, em, ph, sv, dt, tm, ad, "Booked via AI chatbot"⟩] },
          some (mkBookingCreated (jsIdOf fx.insertMeta) obj)), !fx.discordOk)
      else ((db1, none), true)
    | _, _, _, _, _, _, _ => ((db1, none), true)

/-- The inner try with its catch (lines 359-361): the exception is logged
and swallowed, the state stands. -/
def innerTry (fx : Fx) (db1 : Db) (g : List Char) : Db × Option BookingCreated :=
  (innerAttempt fx db1 g).1

/-- Lines 293-362: match the extraction regex against the assistant text
and, when it matches, run the inner try on the captured group. -/
def chatCore (fx : Fx) (db1 : Db) : Db × Option BookingCreated :=
  match extractGroup fx.aiText.data with
  | none => (db1, none)
  | some g => innerTry fx db1 g

/-- handleChat, lines 250-378.  The loaded history feeds only the model
call, which is abstracted by fx.aiText, so the read is represented by its
success flag alone; each flag test models the corresponding awaited effect
throwing into the outer catch, which returns the degraded body with the
default 200 status. -/
def handleChat (req : ChatReq) (db : Db) (fx : Fx) : Db × HttpResp :=
  if strFalsy req.message || strFalsy req.sessionId then
    (db, ⟨400, RespBody.errBody "Message and sessionId required"⟩)
  else if !fx.historyOk then
    (db, ⟨200, RespBody.fallbackBody fallbackMsg⟩)
  else if !fx.aiOk then
    (db, ⟨200, RespBody.fallbackBody fallbackMsg⟩)
  else if !fx.appendOk then
    (db, ⟨200, RespBody.fallbackBody fallbackMsg⟩)
  else
    let db1 := appendTurns db (req.sessionId.getD "") (req.message.getD "") fx.aiText
    let p := chatCore fx db1
    (p.1, ⟨200, RespBody.chatBody (String.mk (cleanResponse fx.aiText.data)) p.2⟩)

/-- The already-parsed JSON body of a direct booking request. -/
structure BookingReq where
  name : Option String
  email : Option String
  phone : Option String
  service : Option String
  date : Option String
  time : Option String
  address : Option String
  notes : Option String
deriving DecidableEq, Repr

/-- Lines 99-104: the loop over the seven required fields returns the first
falsy one. -/
def firstMissing (d : BookingReq) : Option String :=
  if strFalsy d.name then some "name"
  else if strFalsy d.email then some "email"
  else if strFalsy d.phone then some "phone"
  else if strFalsy d.service then some "service"
  else if strFalsy d.date then some "date"
  else if strFalsy d.time then some "time"
  else if strFalsy d.address then some "address"
  else none

def bookingFailMsg : String := "Failed to process booking. Please call 561.532.7120"

/-- handleBooking, lines 94-182: validate, insert, notify; any throw after
validation lands in the catch, which returns a 500 with the phone fallback,
leaving whatever was already inserted in place. -/
def handleBooking (d : BookingReq) (db : Db) (insertOk : Bool)
    (insertMeta : Option Nat) (discordOk : Bool) : Db × HttpResp :=
  match firstMissing d with
  | some f => (db, ⟨400, RespBody.errBody ("Missing required field: " ++ f)⟩)
  | none =>
    if !insertOk then
      (db, ⟨500, RespBody.errBody bookingFailMsg⟩)
    else
      let db2 := { db with bookings := db.bookings ++
        [⟨d.name.getD "", d.email.getD "", d.phone.getD "", d.service.getD "",
          d.date.getD "", d.time.getD "", d.address.getD "", d.notes.getD ""⟩] }
      if !discordOk then
        (db2, ⟨500, RespBody.errBody bookingFailMsg⟩)
      else
        (db2, ⟨200, RespBody.bookingOkBody (jsIdOf insertMeta)
          "Booking received! We\x27ll contact you shortly to confirm."⟩)

/-! Helper lemmas about the marker matcher on a decomposed text. -/

theorem drop_pre_bMark (pre t : List Char) :
    (pre ++ (bMark ++ t)).drop (pre.length + bMark.length) = t := by
  rw [← List.length_append pre bMark, ← List.append_assoc]
  exact List.drop_left (pre ++ bMark) t

theorem drop_all_marks (pre mid post : List Char) :
    (pre ++ (bMark ++ (mid ++ (eMark ++ post)))).drop
      (pre.length + bMark.length + mid.length + eMark.length) = post := by
  have h : pre ++ (bMark ++ (mid ++ (eMark ++ post))) =
      (pre ++ bMark ++ mid ++ eMark) ++ post := by
    simp [List.append_assoc]
  have hl : (pre ++ bMark ++ mid ++ eMark).length =
      pre.length + bMark.length + mid.length + eMark.length := by
    simp only [List.length_append]
  rw [h, ← hl]
  exact List.drop_left _ _

theorem take_pre (pre t : List Char) : (pre ++ t).take pre.length = pre :=
  List.take_left pre t

/-- When the first begin marker of the text sits exactly at the end of pre
and the first end marker after it sits exactly at the end of mid, the
captured group is mid with surrounding whitespace removed. -/
theorem extractGroup_decomp (pre mid post : List Char)
    (h1 : findSubstr bMark (pre ++ (bMark ++ (mid ++ (eMark ++ post)))) = some pre.length)
    (h2 : findSubstr eMark (mid ++ (eMark ++ post)) = some mid.length) :
    extractGroup (pre ++ (bMark ++ (mid ++ (eMark ++ post)))) = some (trimWs mid) := by
  unfold extractGroup
  rw [h1]
  simp only [drop_pre_bMark]
  rw [h2]
  simp only [List.take_left]

/-- Under the same placement hypotheses, replacing the first full match with
the empty string leaves exactly pre followed by post: whatever post holds,
further marker pairs included, survives verbatim. -/
theorem stripFirstBlock_decomp (pre mid post : List Char)
    (h1 : findSubstr bMark (pre ++ (bMark ++ (mid ++ (eMark ++ post)))) = some pre.length)
    (h2 : findSubstr eMark (mid ++ (eMark ++ post)) = some mid.length) :
    stripFirstBlock (pre ++ (bMark ++ (mid ++ (eMark ++ post)))) = pre ++ post := by
  unfold stripFirstBlock matchSpan
  rw [h1]
  simp only [drop_pre_bMark]
  rw [h2]
  simp only [take_pre, drop_all_marks]

/-- A text with no begin marker produces no extraction match. -/
theorem extractGroup_noBegin (s : List Char) (hb : findSubstr bMark s = none) :
    extractGroup s = none := by
  unfold extractGroup
  rw [hb]

/-- A text with no begin marker is left unchanged by the replace. -/
theorem stripFirstBlock_noBegin (s : List Char) (hb : findSubstr bMark s = none) :
    stripFirstBlock s = s := by
  unfold stripFirstBlock matchSpan
  rw [hb]

/-! Helper lemmas reducing the pipeline under given effect outcomes. -/

theorem handleChat_ok (m sid : String) (hm : (m == "") = false)
    (hs : (sid == "") = false) (db : Db) (fx : Fx)
    (hh : fx.historyOk = true) (ha : fx.aiOk = true) (hap : fx.appendOk = true) :
    handleChat ⟨some m, some sid⟩ db fx =
      ((chatCore fx (appendTurns db sid m fx.aiText)).1,
        ⟨200, RespBody.chatBody (String.mk (cleanResponse fx.aiText.data))
          (chatCore fx (appendTurns db sid m fx.aiText)).2⟩) := by
  unfold handleChat
  simp [strFalsy, hm, hs, hh, ha, hap]

theorem chatCore_some (fx : Fx) (db1 : Db) (g : List Char)
    (hg : extractGroup fx.aiText.data = some g) :
    chatCore fx db1 = innerTry fx db1 g := by
  unfold chatCore
  rw [hg]

theorem chatCore_none (fx : Fx) (db1 : Db)
    (hg : extractGroup fx.aiText.data = none) :
    chatCore fx db1 = (db1, none) := by
  unfold chatCore
  rw [hg]

theorem innerTry_parseFail (fx : Fx) (db1 : Db) (g : List Char)
    (hp : parseJsonFlat g = none) : innerTry fx db1 g = (db1, none) := by
  unfold innerTry innerAttempt
  rw [hp]

theorem innerTry_success (fx : Fx) (db1 : Db) (g : List Char)
    (obj : List (String × String)) (nm em ph sv dt tm ad : String)
    (hp : parseJsonFlat g = some obj) (hi : fx.insertOk = true)
    (hnm : jget obj "name" = some nm) (hem : jget obj "email" = some em)
    (hph : jget obj "phone" = some ph) (hsv : jget obj "service" = some sv)
    (hdt : jget obj "date" = some dt) (htm : jget obj "time" = some tm)
    (had : jget obj "address" = some ad) :
    innerTry fx db1 g =
      ({ db1 with bookings := db1.bookings ++
          [⟨nm, em, ph, sv, dt, tm, ad, "Booked via AI chatbot"⟩] },
        some (mkBookingCreated (jsIdOf fx.insertMeta) obj)) := by
  simp [innerTry, innerAttempt, hp, hnm, hem, hph, hsv, hdt, htm, had, hi]

theorem innerTry_missingField (fx : Fx) (db1 : Db) (g : List Char)
    (obj : List (String × String)) (o1 o2 o3 o4 o5 o6 o7 : Option String)
    (hp : parseJsonFlat g = some obj)
    (h1 : jget obj "name" = o1) (h2 : jget obj "email" = o2)
    (h3 : jget obj "phone" = o3) (h4 : jget obj "service" = o4)
    (h5 : jget obj "date" = o5) (h6 : jget obj "time" = o6)
    (h7 : jget obj "address" = o7)
    (hmiss : o1 = none ∨ o2 = none ∨ o3 = none ∨ o4 = none ∨
      o5 = none ∨ o6 = none ∨ o7 = none) :
    innerTry fx db1 g = (db1, none) := by
  rcases o1 with _ | v1 <;> rcases o2 with _ | v2 <;> rcases o3 with _ | v3 <;>
    rcases o4 with _ | v4 <;> rcases o5 with _ | v5 <;> rcases o6 with _ | v6 <;>
    rcases o7 with _ | v7 <;> simp_all [innerTry, innerAttempt]

theorem appendTurns_bookings (db : Db) (sid msg ai : String) :
    (appendTurns db sid msg ai).bookings = db.bookings := rfl

theorem jsIdOf_na (meta : Option Nat) (h : meta = none ∨ meta = some 0) :
    jsIdOf meta = JsId.na := by
  rcases h with h | h <;> subst h <;> rfl

/-! Concrete inputs used by the counterexamples and witnesses. -/

/-- An assistant text whose payload carries all seven keys, with an empty
name value. -/
def ex1Text : String :=
  "Ok! ###BOOKING_DATA### \x7b\"name\":\"\",\"email\":\"a@b.c\",\"phone\":\"1\",\"service\":\"s\",\"date\":\"d\",\"time\":\"t\",\"address\":\"x\"\x7d ###END_BOOKING###"

def ex1Obj : List (String × String) :=
  [("name", ""), ("email", "a@b.c"), ("phone", "1"), ("service", "s"),
    ("date", "d"), ("time", "t"), ("address", "x")]

def ex1Fx : Fx := ⟨true, true, ex1Text, true, true, some 1, true, true⟩

def emptyDb : Db := ⟨[], [], 0⟩

/-- The assistant text of the scenario in section 8 of the spec. -/
def ex2Text : String :=
  "Great, confirming! ###BOOKING_DATA### \x7b\"name\":\"Jane Doe\",\"email\":\"jane@x.com\",\"phone\":\"5551234567\",\"service\":\"residential-driveway\",\"date\":\"2024-06-01\",\"time\":\"morning\",\"address\":\"12 Ocean Dr\"\x7d ###END_BOOKING### Thanks!"

/-- An assistant text holding two marker pairs. -/
def ex3Text : String :=
  "A ###BOOKING_DATA### \x7b\"name\":\"x\"\x7d ###END_BOOKING### B ###BOOKING_DATA### junk ###END_BOOKING### C"

/-- A store holding twenty-one turns of one session, in creation order. -/
def ex5Db : Db :=
  ⟨[], [⟨"s", "user", "m0", 0⟩, ⟨"s", "user", "m1", 1⟩, ⟨"s", "user", "m2", 2⟩,
    ⟨"s", "user", "m3", 3⟩, ⟨"s", "user", "m4", 4⟩, ⟨"s", "user", "m5", 5⟩,
    ⟨"s", "user", "m6", 6⟩, ⟨"s", "user", "m7", 7⟩, ⟨"s", "user", "m8", 8⟩,
    ⟨"s", "user", "m9", 9⟩, ⟨"s", "user", "m10", 10⟩, ⟨"s", "user", "m11", 11⟩,
    ⟨"s", "user", "m12", 12⟩, ⟨"s", "user", "m13", 13⟩, ⟨"s", "user", "m14", 14⟩,
    ⟨"s", "user", "m15", 15⟩, ⟨"s", "user", "m16", 16⟩, ⟨"s", "user", "m17", 17⟩,
    ⟨"s", "user", "m18", 18⟩, ⟨"s", "user", "m19", 19⟩, ⟨"s", "user", "m20", 20⟩], 21⟩

/-- An assistant text with a full valid payload and no surrounding prose
after stripping. -/
def ex6Text : String :=
  "Done! ###BOOKING_DATA### \x7b\"name\":\"Jo\",\"email\":\"j@x.co\",\"phone\":\"2\",\"service\":\"s\",\"date\":\"d\",\"time\":\"t\",\"address\":\"a\"\x7d ###END_BOOKING###"

def ex6Obj : List (String × String) :=
  [("name", "Jo"), ("email", "j@x.co"), ("phone", "2"), ("service", "s"),
    ("date", "d"), ("time", "t"), ("address", "a")]

/-- Effects in which the booking insert succeeds and the Discord webhook
then fails. -/
def ex6Fx : Fx := ⟨true, true, ex6Text, true, true, some 2, false, true⟩

/-- An assistant text whose payload lacks six of the seven required keys. -/
def ex1bText : String :=
  "Ok! ###BOOKING_DATA### \x7b\"name\":\"Z\"\x7d ###END_BOOKING###"

/-! The claims. -/

/-- C1 counterexample: the chat path performs no field validation.  On a
payload whose seven keys are all present but whose name is the empty
string, a booking row is inserted (a storage mutation) and the booking
result is not null, refuting the claim that a payload with an empty
required field causes zero storage mutations and a null booking result. -/
theorem chat_empty_field_inserted :
    jget ex1Obj "name" = some "" ∧
    (handleChat ⟨some "hi", some "s"⟩ emptyDb ex1Fx).1.bookings =
      [⟨"", "a@b.c", "1", "s", "d", "t", "x", "Booked via AI chatbot"⟩] ∧
    (handleChat ⟨some "hi", some "s"⟩ emptyDb ex1Fx).2.body =
      RespBody.chatBody "Ok!" (some ⟨JsId.num 1, ex1Obj⟩) := by decide

/-- C1 (amended): the chat path of handleChat performs no explicit check of
the seven required fields.  A payload in which one of the seven keys is
absent makes the insert binding step throw, the inner catch swallows the
error, so no booking row is inserted and the booking result is null; a
payload in which all seven keys are present is inserted even when some
values are empty strings. -/
theorem chat_missing_field_commit (m sid : String) (hm : (m == "") = false)
    (hs : (sid == "") = false) (db : Db) (fx : Fx)
    (hh : fx.historyOk = true) (ha : fx.aiOk = true) (hap : fx.appendOk = true)
    (g : List Char) (obj : List (String × String))
    (hg : extractGroup fx.aiText.data = some g)
    (hp : parseJsonFlat g = some obj)
    (o1 o2 o3 o4 o5 o6 o7 : Option String)
    (h1 : jget obj "name" = o1) (h2 : jget obj "email" = o2)
    (h3 : jget obj "phone" = o3) (h4 : jget obj "service" = o4)
    (h5 : jget obj "date" = o5) (h6 : jget obj "time" = o6)
    (h7 : jget obj "address" = o7)
    (hmiss : o1 = none ∨ o2 = none ∨ o3 = none ∨ o4 = none ∨
      o5 = none ∨ o6 = none ∨ o7 = none) :
    (handleChat ⟨some m, some sid⟩ db fx).1.bookings = db.bookings ∧
    (handleChat ⟨some m, some sid⟩ db fx).2 =
      ⟨200, RespBody.chatBody (String.mk (cleanResponse fx.aiText.data)) none⟩ := by
  rw [handleChat_ok m sid hm hs db fx hh ha hap, chatCore_some fx _ g hg,
    innerTry_missingField fx _ g obj o1 o2 o3 o4 o5 o6 o7 hp h1 h2 h3 h4 h5 h6 h7 hmiss]
  exact ⟨appendTurns_bookings db sid m fx.aiText, rfl⟩

/-- C1 witness: a payload holding only a name key yields no booking row and
a null booking result. -/
theorem chat_missing_field_commit_witness :
    (handleChat ⟨some "hi", some "s"⟩ emptyDb
      ⟨true, true, ex1bText, true, true, some 1, true, true⟩).1.bookings = emptyDb.bookings ∧
    (handleChat ⟨some "hi", some "s"⟩ emptyDb
      ⟨true, true, ex1bText, true, true, some 1, true, true⟩).2 =
      ⟨200, RespBody.chatBody "Ok!" none⟩ :=
  chat_missing_field_commit "hi" "s" (by decide) (by decide) emptyDb
    ⟨true, true, ex1bText, true, true, some 1, true, true⟩ rfl rfl rfl
    ("\x7b\"name\":\"Z\"\x7d".data) [("name", "Z")] (by decide) (by decide)
    (some "Z") none none none none none none
    (by decide) (by decide) (by decide) (by decide) (by decide) (by decide) (by decide)
    (Or.inr (Or.inl rfl))

/-- C2 counterexample: on the exact scenario text of the claim, the code
removes only the matched span, so the space before the begin marker and the
space after the end marker both remain, and the trim only strips the ends
of the whole reply: the visible reply keeps two spaces between the two
sentences, not the single space the claim states. -/
theorem chat_reply_double_space :
    String.mk (cleanResponse ex2Text.data) = "Great, confirming!  Thanks!" ∧
    "Great, confirming!  Thanks!" ≠ "Great, confirming! Thanks!" := by decide

/-- C2 (amended): for an assistant text decomposing as pre, begin marker,
mid, end marker, post, where the begin marker is the first in the text and
the end marker the first after it, and the trimmed mid parses as a flat
object carrying the seven keys, the chat path inserts exactly the booking
row with those seven values and replies with pre and post concatenated,
trimmed at the ends only. -/
theorem chat_extraction_success (m sid : String) (hm : (m == "") = false)
    (hs : (sid == "") = false) (db : Db) (fx : Fx)
    (hh : fx.historyOk = true) (ha : fx.aiOk = true) (hap : fx.appendOk = true)
    (hi : fx.insertOk = true) (pre mid post : List Char)
    (htext : fx.aiText.data = pre ++ (bMark ++ (mid ++ (eMark ++ post))))
    (h1 : findSubstr bMark (pre ++ (bMark ++ (mid ++ (eMark ++ post)))) = some pre.length)
    (h2 : findSubstr eMark (mid ++ (eMark ++ post)) = some mid.length)
    (obj : List (String × String)) (nm em ph sv dt tm ad : String)
    (hp : parseJsonFlat (trimWs mid) = some obj)
    (hnm : jget obj "name" = some nm) (hem : jget obj "email" = some em)
    (hph : jget obj "phone" = some ph) (hsv : jget obj "service" = some sv)
    (hdt : jget obj "date" = some dt) (htm : jget obj "time" = some tm)
    (had : jget obj "address" = some ad) :
    (handleChat ⟨some m, some sid⟩ db fx).1.bookings =
      db.bookings ++ [⟨nm, em, ph, sv, dt, tm, ad, "Booked via AI chatbot"⟩] ∧
    (handleChat ⟨some m, some sid⟩ db fx).2 =
      ⟨200, RespBody.chatBody (String.mk (trimWs (pre ++ post)))
        (some (mkBookingCreated (jsIdOf fx.insertMeta) obj))⟩ := by
  have hg : extractGroup fx.aiText.data = some (trimWs mid) := by
    rw [htext]; exact extractGroup_decomp pre mid post h1 h2
  have hc : cleanResponse fx.aiText.data = trimWs (pre ++ post) := by
    rw [htext]; unfold cleanResponse; rw [stripFirstBlock_decomp pre mid post h1 h2]
  rw [handleChat_ok m sid hm hs db fx hh ha hap, chatCore_some fx _ (trimWs mid) hg,
    innerTry_success fx _ (trimWs mid) obj nm em ph sv dt tm ad hp hi hnm hem hph hsv hdt htm had,
    hc]
  exact ⟨rfl, rfl⟩

def ex2Pre : List Char := "Great, confirming! ".data

def ex2Mid : List Char :=
  " \x7b\"name\":\"Jane Doe\",\"email\":\"jane@x.com\",\"phone\":\"5551234567\",\"service\":\"residential-driveway\",\"date\":\"2024-06-01\",\"time\":\"morning\",\"address\":\"12 Ocean Dr\"\x7d ".data

def ex2Post : List Char := " Thanks!".data

def ex2Obj : List (String × String) :=
  [("name", "Jane Doe"), ("email", "jane@x.com"), ("phone", "5551234567"),
    ("service", "residential-driveway"), ("date", "2024-06-01"),
    ("time", "morning"), ("address", "12 Ocean Dr")]

/-- C2 witness: the scenario text commits the Jane Doe booking and replies
with the two sentences separated by the two leftover spaces. -/
theorem chat_extraction_success_witness :
    (handleChat ⟨some "hi", some "s"⟩ emptyDb
      ⟨true, true, ex2Text, true, true, some 7, true, true⟩).1.bookings =
      emptyDb.bookings ++ [⟨"Jane Doe", "jane@x.com", "5551234567",
        "residential-driveway", "2024-06-01", "morning", "12 Ocean Dr",
        "Booked via AI chatbot"⟩] ∧
    (handleChat ⟨some "hi", some "s"⟩ emptyDb
      ⟨true, true, ex2Text, true, true, some 7, true, true⟩).2 =
      ⟨200, RespBody.chatBody "Great, confirming!  Thanks!"
        (some ⟨JsId.num 7, ex2Obj⟩)⟩ :=
  chat_extraction_success "hi" "s" (by decide) (by decide) emptyDb
    ⟨true, true, ex2Text, true, true, some 7, true, true⟩ rfl rfl rfl rfl
    ex2Pre ex2Mid ex2Post (by decide) (by decide) (by decide)
    ex2Obj "Jane Doe" "jane@x.com" "5551234567" "residential-driveway"
    "2024-06-01" "morning" "12 Ocean Dr" (by decide) (by decide) (by decide)
    (by decide) (by decide) (by decide) (by decide) (by decide)

/-- C3 counterexample: on a text holding two marker pairs, the replace
without a global flag strips only the first pair: the cleaned visible reply
still holds both markers of the second pair, refuting the claim that all
marker pairs are stripped from the user-visible reply. -/
theorem second_pair_not_stripped :
    extractGroup ex3Text.data = some ("\x7b\"name\":\"x\"\x7d".data) ∧
    findSubstr bMark (cleanResponse ex3Text.data) ≠ none ∧
    findSubstr eMark (cleanResponse ex3Text.data) ≠ none := by decide

/-- C3 (amended): with the first begin marker at the end of pre and the
first end marker after it at the end of mid, extraction considers only that
first pair, whether or not its content is well formed, and the visible
reply is pre followed by post verbatim: any further marker pairs inside
post are neither honored nor stripped. -/
theorem first_pair_only (pre mid post : List Char)
    (h1 : findSubstr bMark (pre ++ (bMark ++ (mid ++ (eMark ++ post)))) = some pre.length)
    (h2 : findSubstr eMark (mid ++ (eMark ++ post)) = some mid.length) :
    extractGroup (pre ++ (bMark ++ (mid ++ (eMark ++ post)))) = some (trimWs mid) ∧
    stripFirstBlock (pre ++ (bMark ++ (mid ++ (eMark ++ post)))) = pre ++ post :=
  ⟨extractGroup_decomp pre mid post h1 h2, stripFirstBlock_decomp pre mid post h1 h2⟩

def ex3Pre : List Char := "A ".data

def ex3Mid : List Char := " \x7b\"name\":\"x\"\x7d ".data

def ex3Post : List Char := " B ###BOOKING_DATA### junk ###END_BOOKING### C".data

/-- C3 witness: on the two-pair text, only the first pair is extracted and
removed; the second pair survives inside the reply text. -/
theorem first_pair_only_witness :
    extractGroup ex3Text.data = some (trimWs ex3Mid) ∧
    stripFirstBlock ex3Text.data = ex3Pre ++ ex3Post :=
  first_pair_only ex3Pre ex3Mid ex3Post (by decide) (by decide)

/-- C4 (confirmed): when the content between a well-formed marker pair
fails to parse, the parse error is caught inside the inner try, so no
booking row is inserted, the block is still stripped from the visible reply
by the replace of line 365, and the request answers 200 with the normal
chat body, no client-visible error. -/
theorem chat_malformed_json_recovery (m sid : String) (hm : (m == "") = false)
    (hs : (sid == "") = false) (db : Db) (fx : Fx)
    (hh : fx.historyOk = true) (ha : fx.aiOk = true) (hap : fx.appendOk = true)
    (pre mid post : List Char)
    (htext : fx.aiText.data = pre ++ (bMark ++ (mid ++ (eMark ++ post))))
    (h1 : findSubstr bMark (pre ++ (bMark ++ (mid ++ (eMark ++ post)))) = some pre.length)
    (h2 : findSubstr eMark (mid ++ (eMark ++ post)) = some mid.length)
    (hp : parseJsonFlat (trimWs mid) = none) :
    (handleChat ⟨some m, some sid⟩ db fx).1.bookings = db.bookings ∧
    (handleChat ⟨some m, some sid⟩ db fx).2 =
      ⟨200, RespBody.chatBody (String.mk (trimWs (pre ++ post))) none⟩ := by
  have hg : extractGroup fx.aiText.data = some (trimWs mid) := by
    rw [htext]; exact extractGroup_decomp pre mid post h1 h2
  have hc : cleanResponse fx.aiText.data = trimWs (pre ++ post) := by
    rw [htext]; unfold cleanResponse; rw [stripFirstBlock_decomp pre mid post h1 h2]
  rw [handleChat_ok m sid hm hs db fx hh ha hap, chatCore_some fx _ (trimWs mid) hg,
    innerTry_parseFail fx _ (trimWs mid) hp, hc]
  exact ⟨appendTurns_bookings db sid m fx.aiText, rfl⟩

/-- An assistant text with malformed content between well-formed markers. -/
def ex4Text : String :=
  "Hi! ###BOOKING_DATA### \x7b\"name\": broken ###END_BOOKING### Bye"

/-- C4 witness: the malformed block is stripped, nothing is inserted, the
response is a normal 200 chat body. -/
theorem chat_malformed_json_recovery_witness :
    (handleChat ⟨some "hi", some "s"⟩ emptyDb
      ⟨true, true, ex4Text, true, true, some 1, true, true⟩).1.bookings = emptyDb.bookings ∧
    (handleChat ⟨some "hi", some "s"⟩ emptyDb
      ⟨true, true, ex4Text, true, true, some 1, true, true⟩).2 =
      ⟨200, RespBody.chatBody "Hi!  Bye" none⟩ :=
  chat_malformed_json_recovery "hi" "s" (by decide) (by decide) emptyDb
    ⟨true, true, ex4Text, true, true, some 1, true, true⟩ rfl rfl rfl
    ("Hi! ".data) (" \x7b\"name\": broken ".data) (" Bye".data)
    (by decide) (by decide) (by decide) (by decide)

/-- C5 (code bug): the history query orders by created_at ascending and
then limits to 20, so it returns the twenty earliest turns of the session,
not the twenty most recent the claim describes.  On a session holding
twenty-one turns, the loader returns twenty turns, the most recent stored
turn is absent from them, and the output differs from the most-recent-20
reading of the contract; a session with no stored turns still yields the
empty sequence. -/
theorem history_loader_oldest_turns :
    (loadHistory ex5Db "s").length = 20 ∧
    ("user", "m20") ∉ loadHistory ex5Db "s" ∧
    (⟨"s", "user", "m20", 20⟩ : ConvRow) ∈ ex5Db.conversations ∧
    loadHistory ex5Db "s" ≠ specMostRecent ex5Db "s" ∧
    loadHistory emptyDb "s" = [] := by decide

/-- C6 counterexample: with a valid extraction and a failing Discord
webhook, a notification failure inside the chat pipeline, the endpoint
replies 200 with the normal chat body carrying the created booking, not
with the generic apologetic message, refuting the claim that every
post-validation failure produces the apologetic phone-fallback reply. -/
theorem inner_failure_normal_reply :
    ex6Fx.discordOk = false ∧
    (handleChat ⟨some "hi", some "s"⟩ emptyDb ex6Fx).2 =
      ⟨200, RespBody.chatBody "Done!" (some ⟨JsId.num 2, ex6Obj⟩)⟩ ∧
    "Done!" ≠ fallbackMsg := by decide

/-- C6 (amended): the endpoint answers 400 exactly when the message or the
session identifier is missing or empty; no chat response ever carries a
status other than 200 or 400; a failure of the history read, the model
call, or the turn append degrades to the 200 apologetic reply; and the
apologetic reply carries the phone number fallback.  Failures inside
extraction, booking commit or notification are swallowed by the inner
catch and answer with the normal chat body instead (see the
counterexample). -/
theorem chat_error_taxonomy (req : ChatReq) (db : Db) (fx : Fx) :
    ((handleChat req db fx).2.status = 400 ↔
      (strFalsy req.message || strFalsy req.sessionId) = true) ∧
    ((handleChat req db fx).2.status = 200 ∨ (handleChat req db fx).2.status = 400) ∧
    ((strFalsy req.message || strFalsy req.sessionId) = false →
      (fx.historyOk = false ∨ fx.aiOk = false ∨ fx.appendOk = false) →
      (handleChat req db fx).2 = ⟨200, RespBody.fallbackBody fallbackMsg⟩) ∧
    findSubstr phoneNum.data fallbackMsg.data ≠ none := by
  refine ⟨?_, ?_, ?_, by decide⟩
  · cases hm : strFalsy req.message <;> cases hsid : strFalsy req.sessionId <;>
      cases hh : fx.historyOk <;> cases ha : fx.aiOk <;> cases hap : fx.appendOk <;>
        simp [handleChat, hm, hsid, hh, ha, hap]
  · cases hm : strFalsy req.message <;> cases hsid : strFalsy req.sessionId <;>
      cases hh : fx.historyOk <;> cases ha : fx.aiOk <;> cases hap : fx.appendOk <;>
        simp [handleChat, hm, hsid, hh, ha, hap]
  · intro hv hfail
    cases hh : fx.historyOk <;> cases ha : fx.aiOk <;> cases hap : fx.appendOk <;>
      simp_all [handleChat]

/-- C6 witness: the taxonomy instantiated at a request with both fields
present and a failing history read. -/
theorem chat_error_taxonomy_witness :
    ((handleChat ⟨some "hi", some "s"⟩ emptyDb
        ⟨false, true, "x", true, true, none, true, true⟩).2.status = 400 ↔
      (strFalsy (some "hi") || strFalsy (some "s")) = true) ∧
    ((handleChat ⟨some "hi", some "s"⟩ emptyDb
        ⟨false, true, "x", true, true, none, true, true⟩).2.status = 200 ∨
      (handleChat ⟨some "hi", some "s"⟩ emptyDb
        ⟨false, true, "x", true, true, none, true, true⟩).2.status = 400) ∧
    ((strFalsy (some "hi") || strFalsy (some "s")) = false →
      ((⟨false, true, "x", true, true, none, true, true⟩ : Fx).historyOk = false ∨
        (⟨false, true, "x", true, true, none, true, true⟩ : Fx).aiOk = false ∨
        (⟨false, true, "x", true, true, none, true, true⟩ : Fx).appendOk = false) →
      (handleChat ⟨some "hi", some "s"⟩ emptyDb
        ⟨false, true, "x", true, true, none, true, true⟩).2 =
        ⟨200, RespBody.fallbackBody fallbackMsg⟩) ∧
    findSubstr phoneNum.data fallbackMsg.data ≠ none :=
  chat_error_taxonomy ⟨some "hi", some "s"⟩ emptyDb
    ⟨false, true, "x", true, true, none, true, true⟩

/-- C7 (confirmed): once the booking insert has succeeded, a failure of the
Discord webhook, thrown after the bookingCreated assignment and caught by
the inner catch, leaves exactly one new booking row appended and the
response still reports the created booking; the email helper never throws
at all.  The third conjunct records that the inner block did throw. -/
theorem booking_row_immune_to_notify_failure (m sid : String)
    (hm : (m == "") = false) (hs : (sid == "") = false) (db : Db) (fx : Fx)
    (hh : fx.historyOk = true) (ha : fx.aiOk = true) (hap : fx.appendOk = true)
    (hi : fx.insertOk = true) (hd : fx.discordOk = false)
    (g : List Char) (obj : List (String × String)) (nm em ph sv dt tm ad : String)
    (hg : extractGroup fx.aiText.data = some g)
    (hp : parseJsonFlat g = some obj)
    (hnm : jget obj "name" = some nm) (hem : jget obj "email" = some em)
    (hph : jget obj "phone" = some ph) (hsv : jget obj "service" = some sv)
    (hdt : jget obj "date" = some dt) (htm : jget obj "time" = some tm)
    (had : jget obj "address" = some ad) :
    (handleChat ⟨some m, some sid⟩ db fx).1.bookings =
      db.bookings ++ [⟨nm, em, ph, sv, dt, tm, ad, "Booked via AI chatbot"⟩] ∧
    (handleChat ⟨some m, some sid⟩ db fx).2.body =
      RespBody.chatBody (String.mk (cleanResponse fx.aiText.data))
        (some (mkBookingCreated (jsIdOf fx.insertMeta) obj)) ∧
    (innerAttempt fx (appendTurns db sid m fx.aiText) g).2 = true := by
  rw [handleChat_ok m sid hm hs db fx hh ha hap, chatCore_some fx _ g hg,
    innerTry_success fx _ g obj nm em ph sv dt tm ad hp hi hnm hem hph hsv hdt htm had]
  refine ⟨rfl, rfl, ?_⟩
  simp [innerAttempt, hp, hnm, hem, hph, hsv, hdt, htm, had, hi, hd]

/-- C7 witness: the Done payload with a failing webhook still yields the
single inserted row and a non-null booking in the response. -/
theorem booking_row_immune_witness :
    (handleChat ⟨some "hi", some "s"⟩ emptyDb ex6Fx).1.bookings =
      emptyDb.bookings ++ [⟨"Jo", "j@x.co", "2", "s", "d", "t", "a",
        "Booked via AI chatbot"⟩] ∧
    (handleChat ⟨some "hi", some "s"⟩ emptyDb ex6Fx).2.body =
      RespBody.chatBody (String.mk (cleanResponse ex6Fx.aiText.data))
        (some (mkBookingCreated (jsIdOf ex6Fx.insertMeta) ex6Obj)) ∧
    (innerAttempt ex6Fx (appendTurns emptyDb "s" "hi" ex6Fx.aiText)
      ("\x7b\"name\":\"Jo\",\"email\":\"j@x.co\",\"phone\":\"2\",\"service\":\"s\",\"date\":\"d\",\"time\":\"t\",\"address\":\"a\"\x7d".data)).2 = true :=
  booking_row_immune_to_notify_failure "hi" "s" (by decide) (by decide) emptyDb ex6Fx
    rfl rfl rfl rfl rfl
    ("\x7b\"name\":\"Jo\",\"email\":\"j@x.co\",\"phone\":\"2\",\"service\":\"s\",\"date\":\"d\",\"time\":\"t\",\"address\":\"a\"\x7d".data)
    ex6Obj "Jo" "j@x.co" "2" "s" "d" "t" "a" (by decide) (by decide)
    (by decide) (by decide) (by decide) (by decide) (by decide) (by decide) (by decide)

/-- C8 counterexample: on the text Hello followed by a space, which holds
neither marker, the reply is the trimmed text, not the text unchanged,
refuting the claim that the text is returned unchanged. -/
theorem no_marker_reply_not_unchanged :
    findSubstr bMark "Hello ".data = none ∧
    findSubstr eMark "Hello ".data = none ∧
    (handleChat ⟨some "hi", some "s"⟩ emptyDb
      ⟨true, true, "Hello ", true, true, some 1, true, true⟩).2 =
      ⟨200, RespBody.chatBody "Hello" none⟩ ∧
    "Hello" ≠ "Hello " := by decide

/-- C8 (amended): for an assistant text holding neither marker, no
extraction happens, no booking row is inserted, the booking result is null,
and the visible reply is the original text trimmed of leading and trailing
whitespace, hence unchanged exactly when the text has no surrounding
whitespace. -/
theorem no_marker_reply_trimmed (m sid : String) (hm : (m == "") = false)
    (hs : (sid == "") = false) (db : Db) (fx : Fx)
    (hh : fx.historyOk = true) (ha : fx.aiOk = true) (hap : fx.appendOk = true)
    (hb : findSubstr bMark fx.aiText.data = none)
    (_he : findSubstr eMark fx.aiText.data = none) :
    (handleChat ⟨some m, some sid⟩ db fx).1.bookings = db.bookings ∧
    (handleChat ⟨some m, some sid⟩ db fx).2 =
      ⟨200, RespBody.chatBody (String.mk (trimWs fx.aiText.data)) none⟩ := by
  have hg : extractGroup fx.aiText.data = none := extractGroup_noBegin _ hb
  have hc : cleanResponse fx.aiText.data = trimWs fx.aiText.data := by
    unfold cleanResponse; rw [stripFirstBlock_noBegin _ hb]
  rw [handleChat_ok m sid hm hs db fx hh ha hap, chatCore_none fx _ hg, hc]
  exact ⟨appendTurns_bookings db sid m fx.aiText, rfl⟩

/-- C8 witness: a marker-free text without surrounding whitespace passes
through as the reply and yields no booking. -/
theorem no_marker_reply_trimmed_witness :
    (handleChat ⟨some "hi", some "s"⟩ emptyDb
      ⟨true, true, "Hi there", true, true, some 1, true, true⟩).1.bookings =
      emptyDb.bookings ∧
    (handleChat ⟨some "hi", some "s"⟩ emptyDb
      ⟨true, true, "Hi there", true, true, some 1, true, true⟩).2 =
      ⟨200, RespBody.chatBody "Hi there" none⟩ :=
  no_marker_reply_trimmed "hi" "s" (by decide) (by decide) emptyDb
    ⟨true, true, "Hi there", true, true, some 1, true, true⟩ rfl rfl rfl
    (by decide) (by decide)

/-- C9 counterexample: on the degraded path, here a failing model call, the
response body is the fallback object whose only key is response: the
bookingCreated field is absent from the body, refuting the claim that every
chat response body carries both keys. -/
theorem degraded_body_missing_key :
    (handleChat ⟨some "hi", some "s"⟩ emptyDb
      ⟨true, false, "x", true, true, some 1, true, true⟩).2 =
      ⟨200, RespBody.fallbackBody fallbackMsg⟩ ∧
    "bookingCreated" ∉ bodyKeys (RespBody.fallbackBody fallbackMsg) := by decide

/-- C9 (amended): every chat response is one of three shapes: a 200 success
body with exactly the keys response and bookingCreated, a 200 degraded body
with the single key response and the apologetic text, or a 400 error body
with the single key error. -/
theorem chat_body_shape (req : ChatReq) (db : Db) (fx : Fx) :
    (bodyKeys (handleChat req db fx).2.body = ["response", "bookingCreated"] ∧
      (handleChat req db fx).2.status = 200) ∨
    ((handleChat req db fx).2.body = RespBody.fallbackBody fallbackMsg ∧
      (handleChat req db fx).2.status = 200 ∧
      bodyKeys (handleChat req db fx).2.body = ["response"]) ∨
    ((handleChat req db fx).2.status = 400 ∧
      bodyKeys (handleChat req db fx).2.body = ["error"]) := by
  cases hm : strFalsy req.message <;> cases hsid : strFalsy req.sessionId <;>
    cases hh : fx.historyOk <;> cases ha : fx.aiOk <;> cases hap : fx.appendOk <;>
      simp [handleChat, bodyKeys, hm, hsid, hh, ha, hap]

/-- C9 witness: the shape trichotomy instantiated at a successful request. -/
theorem chat_body_shape_witness :
    (bodyKeys (handleChat ⟨some "hi", some "s"⟩ emptyDb
        ⟨true, true, "Hi there", true, true, some 1, true, true⟩).2.body =
        ["response", "bookingCreated"] ∧
      (handleChat ⟨some "hi", some "s"⟩ emptyDb
        ⟨true, true, "Hi there", true, true, some 1, true, true⟩).2.status = 200) ∨
    ((handleChat ⟨some "hi", some "s"⟩ emptyDb
        ⟨true, true, "Hi there", true, true, some 1, true, true⟩).2.body =
        RespBody.fallbackBody fallbackMsg ∧
      (handleChat ⟨some "hi", some "s"⟩ emptyDb
        ⟨true, true, "Hi there", true, true, some 1, true, true⟩).2.status = 200 ∧
      bodyKeys (handleChat ⟨some "hi", some "s"⟩ emptyDb
        ⟨true, true, "Hi there", true, true, some 1, true, true⟩).2.body = ["response"]) ∨
    ((handleChat ⟨some "hi", some "s"⟩ emptyDb
        ⟨true, true, "Hi there", true, true, some 1, true, true⟩).2.status = 400 ∧
      bodyKeys (handleChat ⟨some "hi", some "s"⟩ emptyDb
        ⟨true, true, "Hi there", true, true, some 1, true, true⟩).2.body = ["error"]) :=
  chat_body_shape ⟨some "hi", some "s"⟩ emptyDb
    ⟨true, true, "Hi there", true, true, some 1, true, true⟩

/-- C10 (confirmed): when the storage meta reports no last_row_id, or
reports zero, the falsy or-else makes the identifier the literal N/A value
on both paths: the chat response still reports the booking as created with
the N/A id (the payload carrying no id key of its own), and the direct
booking endpoint returns the N/A booking id with its success message. -/
theorem na_booking_id (m sid : String) (hm : (m == "") = false)
    (hs : (sid == "") = false) (db : Db) (fx : Fx)
    (hh : fx.historyOk = true) (ha : fx.aiOk = true) (hap : fx.appendOk = true)
    (hi : fx.insertOk = true)
    (hmeta : fx.insertMeta = none ∨ fx.insertMeta = some 0)
    (g : List Char) (obj : List (String × String)) (nm em ph sv dt tm ad : String)
    (hg : extractGroup fx.aiText.data = some g)
    (hp : parseJsonFlat g = some obj) (hid : jget obj "id" = none)
    (hnm : jget obj "name" = some nm) (hem : jget obj "email" = some em)
    (hph : jget obj "phone" = some ph) (hsv : jget obj "service" = some sv)
    (hdt : jget obj "date" = some dt) (htm : jget obj "time" = some tm)
    (had : jget obj "address" = some ad)
    (d : BookingReq) (db2 : Db) (hd : firstMissing d = none)
    (meta2 : Option Nat) (hmeta2 : meta2 = none ∨ meta2 = some 0) :
    (handleChat ⟨some m, some sid⟩ db fx).2.body =
      RespBody.chatBody (String.mk (cleanResponse fx.aiText.data))
        (some ⟨JsId.na, obj⟩) ∧
    (handleBooking d db2 true meta2 true).2 =
      ⟨200, RespBody.bookingOkBody JsId.na
        "Booking received! We\x27ll contact you shortly to confirm."⟩ := by
  have hbc : mkBookingCreated (jsIdOf fx.insertMeta) obj = ⟨JsId.na, obj⟩ := by
    unfold mkBookingCreated
    rw [hid, jsIdOf_na _ hmeta]
  rw [handleChat_ok m sid hm hs db fx hh ha hap, chatCore_some fx _ g hg,
    innerTry_success fx _ g obj nm em ph sv dt tm ad hp hi hnm hem hph hsv hdt htm had, hbc]
  refine ⟨rfl, ?_⟩
  simp [handleBooking, hd, jsIdOf_na _ hmeta2]

/-- Effects with a successful insert whose meta reports no last_row_id. -/
def ex10Fx : Fx := ⟨true, true, ex6Text, true, true, none, true, true⟩

def ex10Req : BookingReq :=
  ⟨some "Jo", some "j@x.co", some "2", some "s", some "d", some "t", some "a", none⟩

/-- C10 witness: with an absent last_row_id, the chat booking is reported
created with the N/A id and the direct endpoint returns the N/A id. -/
theorem na_booking_id_witness :
    (handleChat ⟨some "hi", some "s"⟩ emptyDb ex10Fx).2.body =
      RespBody.chatBody (String.mk (cleanResponse ex10Fx.aiText.data))
        (some ⟨JsId.na, ex6Obj⟩) ∧
    (handleBooking ex10Req emptyDb true none true).2 =
      ⟨200, RespBody.bookingOkBody JsId.na
        "Booking received! We\x27ll contact you shortly to confirm."⟩ :=
  na_booking_id "hi" "s" (by decide) (by decide) emptyDb ex10Fx rfl rfl rfl rfl
    (Or.inl rfl)
    ("\x7b\"name\":\"Jo\",\"email\":\"j@x.co\",\"phone\":\"2\",\"service\":\"s\",\"date\":\"d\",\"time\":\"t\",\"address\":\"a\"\x7d".data)
    ex6Obj "Jo" "j@x.co" "2" "s" "d" "t" "a" (by decide) (by decide) (by decide)
    (by decide) (by decide) (by decide) (by decide) (by decide) (by decide) (by decide)
    ex10Req emptyDb (by decide) none (Or.inl rfl)

end Jupwash
